import Mathlib

/-!
Shallow embedding of the error-reporting and user-notification layer in
`src/errorHandling.ts` (frappe/books).

Modelling conventions:
- JavaScript runtime values that flow through the untyped parts of the code
  (context mappings, `cause`, wrapped-function arguments) are modelled by the
  inductive `JsVal`; JavaScript truthiness is `truthy`.
- JavaScript objects used as open string-keyed mappings are association lists
  (`Obj`); assignment `o.k = v` is `setKey`, which overwrites in place.
- Object identity (needed because `getErrorLogObject` mutates its `more`
  argument in place and the log entry aliases it) is modelled by a heap:
  a list of objects addressed by index.  `World.heap` is that heap; context
  mappings are passed as heap addresses.
- All observable effects (the process-wide `fyo.errorLog`, IPC error reports,
  toasts, message dialogs, console output) are fields of `World`; each source
  function becomes a `World` transformer.  Awaiting is sequential composition
  in the single-threaded event-loop model; the detached continuation of the
  synchronous wrapper is recorded explicitly in `SyncOutcome`.
- External collaborators that are not part of this file of the repository are
  modelled per the spec: the translation function `t` is the identity on the
  literal template, `showToast` / `showMessageDialog` append a presentation
  request, the IPC invoke for SEND_ERROR appends a report payload, and
  `getErrorMessage` is an explicit function parameter.  `stringifyCircular`
  is external serialization, so the payload keeps the pre-serialization
  context object.
- `truncate` is lodash truncate with options `\x7b length: 128 \x7d`: strings of
  at most 128 characters are unchanged, longer ones become the first 125
  characters followed by the three-character omission "...".
-/

/-- A JavaScript runtime value, as far as the error pipeline inspects one. -/
inductive JsVal : Type where
  | vUndef : JsVal
  | vNull : JsVal
  | vBool : Bool → JsVal
  | vNum : Int → JsVal
  | vStr : String → JsVal
  | vArr : List JsVal → JsVal
deriving Repr

/-- JavaScript truthiness for `JsVal` (`if (x)`). -/
def truthy : JsVal → Bool
  | .vUndef => false
  | .vNull => false
  | .vBool b => b
  | .vNum n => n != 0
  | .vStr s => !s.isEmpty
  | .vArr _ => true

/-- A JavaScript object used as an open string-keyed mapping. -/
abbrev Obj : Type := List (String × JsVal)

/-- Property read `o[k]`. -/
def getKey : Obj → String → Option JsVal
  | [], _ => none
  | (k1, v1) :: rest, k => if k1 = k then some v1 else getKey rest k

/-- Property assignment `o[k] = v`: overwrite in place if the key exists,
otherwise append. -/
def setKey : Obj → String → JsVal → Obj
  | [], k, v => [(k, v)]
  | (k1, v1) :: rest, k, v =>
      if k1 = k then (k, v) :: rest else (k1, v1) :: setKey rest k v

/-- The heap of mutable objects; an address is an index into the list. -/
abbrev Heap : Type := List Obj

/-- Dereference an address. -/
def heapGet (h : Heap) (r : Nat) : Option Obj := List.get? h r

/-- Overwrite the object at an address. -/
def heapSet (h : Heap) (r : Nat) (o : Obj) : Heap := List.set h r o

/-- A raised error as the pipeline reads it: the standard `name`, `message`,
optional `stack` and `cause` fields, plus the optional `shouldStore`
capability read off `BaseError`. -/
structure JsError : Type where
  name : String
  message : String
  stack : Option String
  cause : Option JsVal
  shouldStore : Option Bool
deriving Repr

/-- The environment snapshot read from `fyo.store` and
`fyo.singles.SystemSettings`. -/
structure Store : Type where
  platform : String
  appVersion : String
  language : String
  instanceId : String
  openCount : Int
  countryCode : Option String
  isDevelopment : Bool
deriving Repr

/-- One entry of the process-wide `fyo.errorLog`.  The external `ErrorLog`
type declares `name` and `stack` optional; `more` holds the heap address of
the context object (the entry aliases the mapping, it does not copy it). -/
structure ErrorLogEntry : Type where
  name : Option String
  stack : Option String
  message : String
  more : Nat
deriving Repr

/-- The flattened report payload sent over IPC by `reportError`.  The `more`
field keeps the pre-serialization context object; `stringifyCircular` is an
external collaborator. -/
structure ReportPayload : Type where
  error_name : Option String
  message : String
  stack : Option String
  platform : String
  version : String
  language : String
  instance_id : String
  open_count : Int
  country_code : Option String
  more : Obj
deriving Repr

/-- A toast presentation request.  The `action` closure of the source
(`() => reportIssue(errorLogObj)`) is represented by the entry it captured. -/
structure ToastOptions : Type where
  message : String
  type : String
  actionText : String
  actionEntry : ErrorLogEntry
deriving Repr

/-- A modal dialog presentation request.  Buttons are represented by their
labels; the Report button action of the source records a fresh entry and
invokes the issue composer, the Cancel action is a no-op. -/
structure MessageDialogOptions : Type where
  message : String
  detail : String
  buttons : Option (List String)
deriving Repr

/-- The observable state threaded through the pipeline: the heap of mutable
context objects, the process-wide error log, and the lists of effects sent
to the external collaborators (IPC reports, toasts, dialogs, console). -/
structure World : Type where
  heap : Heap
  errorLog : List ErrorLogEntry
  reports : List ReportPayload
  toasts : List ToastOptions
  dialogs : List MessageDialogOptions
  console : List String
deriving Repr

/-- Allocate a fresh object; returns the new world and the address. -/
def allocObj (w : World) (o : Obj) : World × Nat :=
  ({ w with heap := w.heap ++ [o] }, w.heap.length)

/-- The translation collaborator `t`, modelled as the identity on the
literal template. -/
def t (s : String) : String := s

/-- lodash `truncate(s, \x7b length \x7d)` with the default "..." omission. -/
def truncate (s : String) (length : Nat) : String :=
  if s.length ≤ length then s else (s.take (length - 3)) ++ "..."

/-- JavaScript falsiness of an optional string (`!x` for `undefined` or `""`). -/
def strFalsy : Option String → Bool
  | none => true
  | some s => s.isEmpty

/-- `shouldNotStore`: the `shouldStore` capability defaulted to `true`
(`(error as BaseError).shouldStore ?? true`), negated. -/
def shouldNotStore (error : JsError) : Bool :=
  let shouldLog := error.shouldStore.getD true
  !shouldLog

/-- The report payload body built inside `reportError`. -/
def mkReportBody (store : Store) (w : World) (errorLogObj : ErrorLogEntry) :
    ReportPayload :=
  { error_name := errorLogObj.name
    message := errorLogObj.message
    stack := errorLogObj.stack
    platform := store.platform
    version := store.appVersion
    language := store.language
    instance_id := store.instanceId
    open_count := store.openCount
    country_code := store.countryCode
    more := (heapGet w.heap errorLogObj.more).getD [] }

/-- `reportError`: a no-op when the entry stack is falsy; otherwise builds the
payload, console-logs it in development mode, and invokes the IPC SEND_ERROR
action (modelled as appending the payload to `World.reports`). -/
def reportError (store : Store) (w : World) (errorLogObj : ErrorLogEntry) :
    World :=
  if strFalsy errorLogObj.stack then w
  else
    let body := mkReportBody store w errorLogObj
    let w1 :=
      if store.isDevelopment then
        { w with console := w.console ++ ["reportError"] }
      else w
    { w1 with reports := w1.reports ++ [body] }

/-- `getToastProps`: the toast carries the entry name (generic fallback when
absent), the error type, the Report Error action text, and the action closure
capturing the entry. -/
def getToastProps (errorLogObj : ErrorLogEntry) : ToastOptions :=
  { message := errorLogObj.name.getD (t "Error")
    type := "error"
    actionText := t "Report Error"
    actionEntry := errorLogObj }

/-- `getErrorLogObject(error, more)`: if the destructured `cause` is truthy it
is assigned into the caller-supplied context object in place; the entry is
built from the error name, stack and message with `more` aliasing the same
object; the entry is appended to `fyo.errorLog` and returned. -/
def getErrorLogObject (w : World) (error : JsError) (more : Nat) :
    World × ErrorLogEntry :=
  let cause := error.cause.getD .vUndef
  let heap1 :=
    if truthy cause then
      match heapGet w.heap more with
      | some obj => heapSet w.heap more (setKey obj "cause" cause)
      | none => w.heap
    else w.heap
  let errorLogObj : ErrorLogEntry :=
    { name := some error.name
      stack := error.stack
      message := error.message
      more := more }
  ({ w with heap := heap1, errorLog := w.errorLog ++ [errorLogObj] },
   errorLogObj)

/-- The external toast presenter: records the presentation request. -/
def showToast (w : World) (props : ToastOptions) : World :=
  { w with toasts := w.toasts ++ [props] }

/-- The external dialog presenter: records the presentation request. -/
def showMessageDialog (w : World) (options : MessageDialogOptions) : World :=
  { w with dialogs := w.dialogs ++ [options] }

/-- `handleError(logToConsole, error, more?)`: optional console log, the
`shouldNotStore` gate, then record (allocating `\x7b\x7d` when `more` is absent),
report (awaited) and toast. -/
def handleError (store : Store) (w : World) (logToConsole : Bool)
    (error : JsError) (more : Option Nat) : World :=
  let w0 :=
    if logToConsole then
      { w with console := w.console ++ ["console.error " ++ error.name] }
    else w
  if shouldNotStore error then w0
  else
    let (w1, moreRef) :=
      match more with
      | some r => (w0, r)
      | none => allocObj w0 []
    let (w2, errorLogObj) := getErrorLogObject w1 error moreRef
    let w3 := reportError store w2 errorLogObj
    showToast w3 (getToastProps errorLogObj)

/-- `getErrorLabel`: the fixed classification table from the error name to a
localized display label, with a generic fallback. -/
def getErrorLabel (error : JsError) : String :=
  let name := error.name
  if name.isEmpty then t "Error"
  else if name = "BaseError" then t "Error"
  else if name = "ValidationError" then t "Validation Error"
  else if name = "NotFoundError" then t "Not Found"
  else if name = "ForbiddenError" then t "Forbidden Error"
  else if name = "DuplicateEntryError" then t "Duplicate Entry"
  else if name = "LinkValidationError" then t "Link Validation Error"
  else if name = "MandatoryError" then t "Mandatory Error"
  else if name = "DatabaseError" then t "Database Error"
  else if name = "CannotCommitError" then t "Cannot Commit Error"
  else if name = "NotImplemented" then t "Error"
  else t "Error"

/-- The ten recognized error kind names of the classification table. -/
def recognizedNames : List String :=
  ["BaseError", "ValidationError", "NotFoundError", "ForbiddenError",
   "DuplicateEntryError", "LinkValidationError", "MandatoryError",
   "DatabaseError", "CannotCommitError", "NotImplemented"]

/-- `handleErrorWithDialog(error, doc?, reportError?, dontThrow?)`: computes
the display message via the external `getErrorMessage` collaborator, runs
`handleError(false, error, \x7b errorMessage, doc \x7d)`, builds the dialog from the
classified label and the display message (truncated to 128 characters with
Report and Cancel buttons when `reportError` is requested), shows the dialog,
then either swallows the error (`dontThrow`, with a development console log)
or re-raises it.  The TypeScript signature annotates the two flags with the
literal type `false`; at runtime any truthy value enables them, so they are
modelled as booleans. -/
def handleErrorWithDialog (store : Store)
    (getErrorMessage : JsError → JsVal → String) (w : World)
    (error : JsError) (doc : JsVal) (reportError : Bool) (dontThrow : Bool) :
    World × Except JsError Unit :=
  let errorMessage := getErrorMessage error doc
  let (w1, ctxRef) :=
    allocObj w [("errorMessage", .vStr errorMessage), ("doc", doc)]
  let w2 := handleError store w1 false error (some ctxRef)
  let label := getErrorLabel error
  let options : MessageDialogOptions :=
    if reportError then
      { message := label
        detail := truncate errorMessage 128
        buttons := some [t "Report", t "Cancel"] }
    else
      { message := label, detail := errorMessage, buttons := none }
  let w3 := showMessageDialog w2 options
  if dontThrow then
    let w4 :=
      if store.isDevelopment then
        { w3 with console := w3.console ++ ["console.error " ++ error.name] }
      else w3
    (w4, .ok ())
  else (w3, .error error)

/-- `getErrorHandled`: the asynchronous wrapper.  On success the result is
returned unchanged; on failure the handler is awaited with the function name
and arguments as context, then the original error is re-raised to the
caller. -/
def errorHandled (store : Store) (w : World) (funcName : String)
    (func : List JsVal → Except JsError JsVal) (args : List JsVal) :
    World × Except JsError JsVal :=
  match func args with
  | .ok v => (w, .ok v)
  | .error e =>
      let (w1, ctxRef) :=
        allocObj w [("functionName", .vStr funcName),
                    ("functionArgs", .vArr args)]
      (handleError store w1 false e (some ctxRef), .error e)

/-- The outcome of one call of the synchronous wrapper: the state after the
fired handling settles, the value returned synchronously to the caller, the
error raised synchronously to the caller (the catch block never re-throws, so
this is always `none`), and the error re-raised inside the detached
`.then` continuation after handling settles. -/
structure SyncOutcome : Type where
  world : World
  returned : JsVal
  raisedToCaller : Option JsError
  detachedRaise : Option JsError
deriving Repr

/-- `getErrorHandledSync`: the synchronous wrapper.  On success the result is
returned unchanged; on failure the handling is fired without being awaited,
the caller synchronously receives `undefined` (the catch block returns
nothing and raises nothing), and the original error is re-thrown only inside
the detached continuation chained on the handling. -/
def errorHandledSync (store : Store) (w : World) (funcName : String)
    (func : List JsVal → Except JsError JsVal) (args : List JsVal) :
    SyncOutcome :=
  match func args with
  | .ok v =>
      { world := w, returned := v, raisedToCaller := none,
        detachedRaise := none }
  | .error e =>
      let (w1, ctxRef) :=
        allocObj w [("functionName", .vStr funcName),
                    ("functionArgs", .vArr args)]
      { world := handleError store w1 false e (some ctxRef)
        returned := .vUndef
        raisedToCaller := none
        detachedRaise := some e }

/-- A concrete environment snapshot used for concrete runs. -/
def sampleStore : Store :=
  { platform := "linux"
    appVersion := "0.21.0"
    language := "en"
    instanceId := "inst"
    openCount := 1
    countryCode := none
    isDevelopment := false }

/-- The initial world: empty heap, log and effect lists. -/
def emptyWorld : World :=
  { heap := [], errorLog := [], reports := [], toasts := [], dialogs := [],
    console := [] }

/-- The spec scenario error: name ValidationError, message Bad input, a
non-empty stack, `shouldStore` unset. -/
def validationError : JsError :=
  { name := "ValidationError"
    message := "Bad input"
    stack := some "trace..."
    cause := none
    shouldStore := some true }

/-- The scenario error with `shouldStore` left unset. -/
def unsetStoreError : JsError :=
  { name := "ValidationError"
    message := "Bad input"
    stack := some "trace..."
    cause := none
    shouldStore := none }

/-- An error whose `shouldStore` capability is explicitly false. -/
def noStoreError : JsError :=
  { name := "ValidationError"
    message := "Bad input"
    stack := some "trace..."
    cause := none
    shouldStore := some false }

/-- A log entry with an absent stack. -/
def emptyStackEntry : ErrorLogEntry :=
  { name := some "SyntheticError", stack := none, message := "m", more := 0 }

/-- A world whose heap holds one context object, the mapping a to 1. -/
def oneObjWorld : World :=
  { emptyWorld with heap := [[("a", JsVal.vNum 1)]] }

/-- An error whose `cause` field holds the number 0 (present but falsy). -/
def causeZeroError : JsError :=
  { name := "CauseZero", message := "m", stack := none,
    cause := some (.vNum 0), shouldStore := none }

/-- An error whose `cause` field holds the boolean false (non-null but
falsy). -/
def causeFalseError : JsError :=
  { name := "CauseFalse", message := "m", stack := none,
    cause := some (.vBool false), shouldStore := none }

/-- An error whose `cause` field holds a non-empty string (truthy). -/
def causeStrError : JsError :=
  { name := "CauseStr", message := "m", stack := none,
    cause := some (.vStr "boom"), shouldStore := none }

/-- A wrapped operation that always succeeds with the number 7. -/
def okFunc : List JsVal → Except JsError JsVal := fun _ => .ok (.vNum 7)

/-- A wrapped operation that always fails with the sample error. -/
def failFunc : List JsVal → Except JsError JsVal :=
  fun _ => .error unsetStoreError

/-- An error carrying only a kind name, for exercising the classifier. -/
def namedError (n : String) : JsError :=
  { name := n, message := "", stack := none, cause := none,
    shouldStore := none }

theorem getKey_setKey_self (o : Obj) (k : String) (v : JsVal) :
    getKey (setKey o k v) k = some v := by
  induction o with
  | nil => simp [setKey, getKey]
  | cons p rest ih =>
    obtain ⟨k1, v1⟩ := p
    by_cases h : k1 = k
    · simp [setKey, h, getKey]
    · simp [setKey, h, getKey, ih]

theorem getKey_setKey_ne (o : Obj) (k k1 : String) (v : JsVal) (h : k1 ≠ k) :
    getKey (setKey o k v) k1 = getKey o k1 := by
  induction o with
  | nil => simp [setKey, getKey, Ne.symm h]
  | cons p rest ih =>
    obtain ⟨k2, v2⟩ := p
    by_cases h2 : k2 = k
    · subst h2; simp [setKey, getKey, Ne.symm h]
    · simp [setKey, h2, getKey, ih]

theorem heapGet_lt {h : Heap} {r : Nat} {o0 : Obj} (hr : heapGet h r = some o0) :
    r < h.length := by
  by_contra hge
  rw [heapGet, List.get?_eq_none.mpr (Nat.le_of_not_lt hge)] at hr
  cases hr

theorem heapGet_heapSet_self {h : Heap} {r : Nat} {o0 : Obj} (o : Obj)
    (hr : heapGet h r = some o0) : heapGet (heapSet h r o) r = some o := by
  simpa [heapGet, heapSet] using List.get?_set_eq_of_lt o (heapGet_lt hr)

theorem heapGet_heapSet_ne (h : Heap) (r r2 : Nat) (o : Obj) (hne : r2 ≠ r) :
    heapGet (heapSet h r o) r2 = heapGet h r2 := by
  rw [heapSet, heapGet, heapGet, List.get?_set_ne o h (Ne.symm hne)]

theorem reportError_dialogs (store : Store) (w : World) (e : ErrorLogEntry) :
    (reportError store w e).dialogs = w.dialogs := by
  unfold reportError
  split
  · rfl
  · split <;> rfl

theorem reportError_toasts (store : Store) (w : World) (e : ErrorLogEntry) :
    (reportError store w e).toasts = w.toasts := by
  unfold reportError
  split
  · rfl
  · split <;> rfl

theorem reportError_errorLog (store : Store) (w : World) (e : ErrorLogEntry) :
    (reportError store w e).errorLog = w.errorLog := by
  unfold reportError
  split
  · rfl
  · split <;> rfl

theorem reportError_heap (store : Store) (w : World) (e : ErrorLogEntry) :
    (reportError store w e).heap = w.heap := by
  unfold reportError
  split
  · rfl
  · split <;> rfl

theorem reportError_reports (store : Store) (w : World) (e : ErrorLogEntry) :
    (reportError store w e).reports =
      if strFalsy e.stack then w.reports
      else w.reports ++ [mkReportBody store w e] := by
  unfold reportError
  split
  · rfl
  · split <;> rfl

theorem getErrorLogObject_snd (w : World) (error : JsError) (r : Nat) :
    (getErrorLogObject w error r).2 =
      { name := some error.name, stack := error.stack,
        message := error.message, more := r } := rfl

theorem getErrorLogObject_fst_reports (w : World) (error : JsError) (r : Nat) :
    (getErrorLogObject w error r).1.reports = w.reports := rfl

theorem getErrorLogObject_fst_toasts (w : World) (error : JsError) (r : Nat) :
    (getErrorLogObject w error r).1.toasts = w.toasts := rfl

theorem getErrorLogObject_fst_dialogs (w : World) (error : JsError) (r : Nat) :
    (getErrorLogObject w error r).1.dialogs = w.dialogs := rfl

theorem getErrorLogObject_fst_console (w : World) (error : JsError) (r : Nat) :
    (getErrorLogObject w error r).1.console = w.console := rfl

theorem getErrorLogObject_fst_errorLog (w : World) (error : JsError) (r : Nat) :
    (getErrorLogObject w error r).1.errorLog =
      w.errorLog ++ [(getErrorLogObject w error r).2] := rfl

theorem getErrorLogObject_fst_heap (w : World) (error : JsError) (r : Nat) :
    (getErrorLogObject w error r).1.heap =
      if truthy (error.cause.getD .vUndef) then
        match heapGet w.heap r with
        | some obj =>
            heapSet w.heap r (setKey obj "cause" (error.cause.getD .vUndef))
        | none => w.heap
      else w.heap := rfl

theorem handleError_shape (store : Store) (w : World) (ltc : Bool)
    (error : JsError) (more : Option Nat) (hs : shouldNotStore error = false) :
    handleError store w ltc error more =
      (let w0 :=
        if ltc then
          { w with console := w.console ++ ["console.error " ++ error.name] }
        else w
      let (w1, moreRef) :=
        match more with
        | some r => (w0, r)
        | none => allocObj w0 []
      let (w2, errorLogObj) := getErrorLogObject w1 error moreRef
      let w3 := reportError store w2 errorLogObj
      showToast w3 (getToastProps errorLogObj)) := by
  unfold handleError
  rw [hs]
  simp only [Bool.false_eq_true, if_false]

theorem handleError_dialogs (store : Store) (w : World) (ltc : Bool)
    (error : JsError) (more : Option Nat) :
    (handleError store w ltc error more).dialogs = w.dialogs := by
  by_cases hs : shouldNotStore error
  · cases ltc <;> simp [handleError, hs]
  · rw [handleError_shape store w ltc error more (by simpa using hs)]
    cases more <;> cases ltc <;>
      simp [allocObj, showToast, reportError_dialogs,
        getErrorLogObject_fst_dialogs]

theorem handleError_run (store : Store) (w : World) (ltc : Bool)
    (error : JsError) (more : Option Nat) (hs : shouldNotStore error = false) :
    ∃ entry body,
      entry.name = some error.name ∧ entry.stack = error.stack ∧
      entry.message = error.message ∧
      body.stack = error.stack ∧ body.error_name = some error.name ∧
      (handleError store w ltc error more).errorLog = w.errorLog ++ [entry] ∧
      (handleError store w ltc error more).toasts =
        w.toasts ++ [getToastProps entry] ∧
      (handleError store w ltc error more).reports =
        (if strFalsy error.stack then w.reports else w.reports ++ [body]) := by
  rw [handleError_shape store w ltc error more hs]
  cases more with
  | some r =>
    cases ltc with
    | false =>
      refine ⟨(getErrorLogObject w error r).2,
        mkReportBody store (getErrorLogObject w error r).1
          (getErrorLogObject w error r).2, rfl, rfl, rfl, rfl, rfl, ?_, ?_, ?_⟩
      · simp [showToast, reportError_errorLog, getErrorLogObject_fst_errorLog]
      · simp [showToast, reportError_toasts, getErrorLogObject_fst_toasts]
      · simp [showToast, reportError_reports, getErrorLogObject_fst_reports,
          getErrorLogObject_snd]
    | true =>
      refine ⟨(getErrorLogObject
          { w with console := w.console ++ ["console.error " ++ error.name] }
          error r).2,
        mkReportBody store (getErrorLogObject
          { w with console := w.console ++ ["console.error " ++ error.name] }
          error r).1
          (getErrorLogObject
          { w with console := w.console ++ ["console.error " ++ error.name] }
          error r).2, rfl, rfl, rfl, rfl, rfl, ?_, ?_, ?_⟩
      · simp [showToast, reportError_errorLog, getErrorLogObject_fst_errorLog]
      · simp [showToast, reportError_toasts, getErrorLogObject_fst_toasts]
      · simp [showToast, reportError_reports, getErrorLogObject_fst_reports,
          getErrorLogObject_snd]
  | none =>
    cases ltc with
    | false =>
      refine ⟨(getErrorLogObject { w with heap := w.heap ++ [[]] }
          error w.heap.length).2,
        mkReportBody store (getErrorLogObject { w with heap := w.heap ++ [[]] }
          error w.heap.length).1
          (getErrorLogObject { w with heap := w.heap ++ [[]] }
          error w.heap.length).2, rfl, rfl, rfl, rfl, rfl, ?_, ?_, ?_⟩
      · simp [allocObj, showToast, reportError_errorLog,
          getErrorLogObject_fst_errorLog]
      · simp [allocObj, showToast, reportError_toasts,
          getErrorLogObject_fst_toasts]
      · simp [allocObj, showToast, reportError_reports,
          getErrorLogObject_fst_reports, getErrorLogObject_snd]
    | true =>
      refine ⟨(getErrorLogObject
          { w with heap := w.heap ++ [[]], console := w.console ++ ["console.error " ++ error.name] }
          error w.heap.length).2,
        mkReportBody store (getErrorLogObject
          { w with heap := w.heap ++ [[]], console := w.console ++ ["console.error " ++ error.name] }
          error w.heap.length).1
          (getErrorLogObject
          { w with heap := w.heap ++ [[]], console := w.console ++ ["console.error " ++ error.name] }
          error w.heap.length).2, rfl, rfl, rfl, rfl, rfl, ?_, ?_, ?_⟩
      · simp [allocObj, showToast, reportError_errorLog,
          getErrorLogObject_fst_errorLog]
      · simp [allocObj, showToast, reportError_toasts,
          getErrorLogObject_fst_toasts]
      · simp [allocObj, showToast, reportError_reports,
          getErrorLogObject_fst_reports, getErrorLogObject_snd]

/-- C3: for every error whose `shouldStore` capability is explicitly false,
`handleError` performs no observable handling: the error log, the reports,
the toasts, the heap and the dialogs are unchanged, and when console logging
was not requested the whole state is unchanged; when `shouldStore` is absent
it defaults to true and handling proceeds exactly as with `shouldStore`
true. -/
theorem C3_classification_gate (store : Store) (w : World) (ltc : Bool)
    (error : JsError) (more : Option Nat) :
    (error.shouldStore = some false →
      (handleError store w ltc error more).errorLog = w.errorLog ∧
      (handleError store w ltc error more).reports = w.reports ∧
      (handleError store w ltc error more).toasts = w.toasts ∧
      (handleError store w ltc error more).heap = w.heap ∧
      (handleError store w ltc error more).dialogs = w.dialogs ∧
      (ltc = false → handleError store w ltc error more = w)) ∧
    handleError store w ltc { error with shouldStore := none } more =
      handleError store w ltc { error with shouldStore := some true } more := by
  constructor
  · intro hss
    have hs : shouldNotStore error = true := by simp [shouldNotStore, hss]
    cases ltc <;> simp [handleError, hs]
  · rfl

/-- Witness for C3: the gate at a concrete error with `shouldStore` false. -/
theorem C3_witness :
    (handleError sampleStore emptyWorld false noStoreError none).errorLog =
      emptyWorld.errorLog ∧
    handleError sampleStore emptyWorld false noStoreError none = emptyWorld := by
  have h := C3_classification_gate sampleStore emptyWorld false noStoreError none
  exact ⟨(h.1 rfl).1, (h.1 rfl).2.2.2.2.2 rfl⟩

/-- C4: the remote reporter is a no-op on every entry with an empty or absent
stack; a payload is appended exactly when the stack is non-falsy; and through
`handleError` no report is ever sent for an error with a falsy stack,
regardless of its `shouldStore` value. -/
theorem C4_reporter_requires_stack (store : Store) (w : World)
    (entry : ErrorLogEntry) (ltc : Bool) (error : JsError)
    (more : Option Nat) :
    (strFalsy entry.stack = true → reportError store w entry = w) ∧
    (strFalsy entry.stack = false →
      (reportError store w entry).reports =
        w.reports ++ [mkReportBody store w entry]) ∧
    (strFalsy error.stack = true →
      (handleError store w ltc error more).reports = w.reports) := by
  refine ⟨?_, ?_, ?_⟩
  · intro h
    simp [reportError, h]
  · intro h
    simp [reportError_reports, h]
  · intro h
    by_cases hs : shouldNotStore error
    · cases ltc <;> simp [handleError, hs]
    · obtain ⟨entry2, body, _, _, _, _, _, _, _, hrep⟩ :=
        handleError_run store w ltc error more (by simpa using hs)
      rw [hrep, h]
      simp

/-- Witness for C4: the reporter at a concrete entry with an absent stack. -/
theorem C4_witness :
    reportError sampleStore emptyWorld emptyStackEntry = emptyWorld :=
  (C4_reporter_requires_stack sampleStore emptyWorld emptyStackEntry false
    unsetStoreError none).1 rfl

/-- C5: for every error with absent-or-true `shouldStore` and a non-falsy
stack, one `handleError` call appends exactly one log entry and exactly one
report whose payload stack equals the error stack and whose `error_name`
equals the error name. -/
theorem C5_record_and_report_exactly_once (store : Store) (w : World)
    (ltc : Bool) (error : JsError) (more : Option Nat)
    (hstore : error.shouldStore ≠ some false)
    (hstack : strFalsy error.stack = false) :
    ∃ entry body,
      (handleError store w ltc error more).errorLog = w.errorLog ++ [entry] ∧
      (handleError store w ltc error more).reports = w.reports ++ [body] ∧
      body.stack = error.stack ∧ body.error_name = some error.name := by
  have hs : shouldNotStore error = false := by
    rcases hss : error.shouldStore with _ | b
    · simp [shouldNotStore, hss]
    · cases b
      · exact absurd hss hstore
      · simp [shouldNotStore, hss]
  obtain ⟨entry, body, _, _, _, hbs, hbn, hlog, _, hrep⟩ :=
    handleError_run store w ltc error more hs
  refine ⟨entry, body, hlog, ?_, hbs, hbn⟩
  rw [hrep, hstack]
  simp

/-- Witness for C5: the spec scenario error, `shouldStore` unset, non-empty
stack. -/
theorem C5_witness :
    ∃ entry body,
      (handleError sampleStore emptyWorld false unsetStoreError none).errorLog =
        emptyWorld.errorLog ++ [entry] ∧
      (handleError sampleStore emptyWorld false unsetStoreError none).reports =
        emptyWorld.reports ++ [body] ∧
      body.stack = unsetStoreError.stack ∧
      body.error_name = some unsetStoreError.name :=
  C5_record_and_report_exactly_once sampleStore emptyWorld false
    unsetStoreError none (by simp [unsetStoreError]) rfl

/-- When `shouldStore` is not explicitly false, the gate does not block. -/
theorem not_shouldNotStore_of_ne (error : JsError)
    (hstore : error.shouldStore ≠ some false) :
    shouldNotStore error = false := by
  rcases hss : error.shouldStore with _ | b
  · simp [shouldNotStore, hss]
  · cases b
    · exact absurd hss hstore
    · simp [shouldNotStore, hss]

/-- C1 (counterexample): in the spec scenario (error named ValidationError,
non-empty stack, `shouldStore` unset), the toast presented by `handleError`
carries the raw error name "ValidationError" as its message while the Label
Classifier output for that name is "Validation Error"; the two differ, so the
toast does not carry the classified label. -/
theorem C1_counterexample :
    ((handleError sampleStore emptyWorld false unsetStoreError none).toasts.map
      (fun p => p.message)) = ["ValidationError"] ∧
    getErrorLabel unsetStoreError = "Validation Error" ∧
    "ValidationError" ≠ "Validation Error" :=
  ⟨rfl, rfl, by decide⟩

/-- C1 (amended): for every error with `shouldStore` absent or true and a
non-empty stack, the toast presented by `handleError` carries the raw error
`name` as its message (not the classified label of the Label Classifier). -/
theorem C1_toast_carries_error_name (store : Store) (w : World) (ltc : Bool)
    (error : JsError) (more : Option Nat)
    (hstore : error.shouldStore ≠ some false)
    (hstack : strFalsy error.stack = false) :
    ∃ entry,
      (handleError store w ltc error more).toasts =
        w.toasts ++ [getToastProps entry] ∧
      entry.name = some error.name ∧
      (getToastProps entry).message = error.name := by
  obtain ⟨entry, body, hname, _, _, _, _, _, htoast, _⟩ :=
    handleError_run store w ltc error more (not_shouldNotStore_of_ne error hstore)
  exact ⟨entry, htoast, hname, by simp [getToastProps, hname, t]⟩

/-- Witness for C1 (amended): the spec scenario error. -/
theorem C1_witness :
    ∃ entry,
      (handleError sampleStore emptyWorld false unsetStoreError none).toasts =
        emptyWorld.toasts ++ [getToastProps entry] ∧
      entry.name = some unsetStoreError.name ∧
      (getToastProps entry).message = unsetStoreError.name :=
  C1_toast_carries_error_name sampleStore emptyWorld false unsetStoreError none
    (by simp [unsetStoreError]) rfl

/-- C2 (counterexample): two distinct recognized kind names, BaseError and
NotImplemented, map to the same label, which moreover equals the label of an
unrecognized name; so the ten recognized names do not each return a distinct
label of their own. -/
theorem C2_counterexample :
    getErrorLabel (namedError "BaseError") =
      getErrorLabel (namedError "NotImplemented") ∧
    getErrorLabel (namedError "BaseError") =
      getErrorLabel (namedError "SomeUnknownName") ∧
    "BaseError" ≠ "NotImplemented" :=
  ⟨rfl, rfl, by decide⟩

/-- C2 (amended): the label classifier is total and never returns an empty
label; each of the ten recognized kind names returns its label from the
table, where BaseError and NotImplemented share the generic "Error" label
with the fallback while the remaining eight labels are their own; and every
unrecognized name (the empty string included) returns the same generic
"Error" fallback label. -/
theorem C2_label_classifier (error : JsError) :
    getErrorLabel error ≠ "" ∧
    (error.name = "BaseError" → getErrorLabel error = "Error") ∧
    (error.name = "ValidationError" →
      getErrorLabel error = "Validation Error") ∧
    (error.name = "NotFoundError" → getErrorLabel error = "Not Found") ∧
    (error.name = "ForbiddenError" → getErrorLabel error = "Forbidden Error") ∧
    (error.name = "DuplicateEntryError" →
      getErrorLabel error = "Duplicate Entry") ∧
    (error.name = "LinkValidationError" →
      getErrorLabel error = "Link Validation Error") ∧
    (error.name = "MandatoryError" → getErrorLabel error = "Mandatory Error") ∧
    (error.name = "DatabaseError" → getErrorLabel error = "Database Error") ∧
    (error.name = "CannotCommitError" →
      getErrorLabel error = "Cannot Commit Error") ∧
    (error.name = "NotImplemented" → getErrorLabel error = "Error") ∧
    (error.name ∉ recognizedNames → getErrorLabel error = "Error") := by
  refine ⟨?_, ?_, ?_, ?_, ?_, ?_, ?_, ?_, ?_, ?_, ?_, ?_⟩
  · simp only [getErrorLabel, t]
    repeat' split
    all_goals decide
  · intro h; simp only [getErrorLabel, t, h]; decide
  · intro h; simp only [getErrorLabel, t, h]; decide
  · intro h; simp only [getErrorLabel, t, h]; decide
  · intro h; simp only [getErrorLabel, t, h]; decide
  · intro h; simp only [getErrorLabel, t, h]; decide
  · intro h; simp only [getErrorLabel, t, h]; decide
  · intro h; simp only [getErrorLabel, t, h]; decide
  · intro h; simp only [getErrorLabel, t, h]; decide
  · intro h; simp only [getErrorLabel, t, h]; decide
  · intro h; simp only [getErrorLabel, t, h]; decide
  · intro h
    simp only [recognizedNames, List.mem_cons, List.mem_singleton, not_or] at h
    obtain ⟨h1, h2, h3, h4, h5, h6, h7, h8, h9, h10⟩ := h
    simp [getErrorLabel, t, h1, h2, h3, h4, h5, h6, h7, h8, h9, h10]

/-- Witness for C2 (amended): a recognized and an unrecognized name. -/
theorem C2_witness :
    getErrorLabel (namedError "ValidationError") = "Validation Error" ∧
    getErrorLabel (namedError "SomeUnknownName") = "Error" := by
  constructor
  · exact (C2_label_classifier (namedError "ValidationError")).2.2.1 rfl
  · exact (C2_label_classifier (namedError "SomeUnknownName")).2.2.2.2.2.2.2.2.2.2.2
      (by decide)

/-- C6 (counterexample): an error whose `cause` field holds the number 0
carries a cause, yet recording it leaves the context object untouched: the
resulting mapping has no `cause` key, because the source guards the merge
with JavaScript truthiness (`if (cause)`), not presence. -/
theorem C6_counterexample :
    causeZeroError.cause = some (JsVal.vNum 0) ∧
    (getErrorLogObject oneObjWorld causeZeroError 0).1.heap =
      [[("a", JsVal.vNum 1)]] ∧
    getKey [("a", JsVal.vNum 1)] "cause" = none :=
  ⟨rfl, rfl, rfl⟩

/-- C6 (amended): recording an error preserves all keys of the supplied
context mapping and, when the error carries a truthy `cause`, merges it into
that mapping under the key `cause`: every original key stays present (keys
other than `cause` with their original value), the `cause` key is present
with the cause when the cause is truthy, and the mapping is unchanged when
the cause is absent or falsy; the entry is appended to the ordered log and
returned holding the address of that same mapping. -/
theorem C6_record_preserves_context (w : World) (error : JsError) (r : Nat)
    (obj : Obj) (hobj : heapGet w.heap r = some obj) :
    ∃ obj2,
      (getErrorLogObject w error r).1.errorLog =
        w.errorLog ++ [(getErrorLogObject w error r).2] ∧
      (getErrorLogObject w error r).2.more = r ∧
      heapGet (getErrorLogObject w error r).1.heap r = some obj2 ∧
      (∀ k, k ≠ "cause" → getKey obj2 k = getKey obj k) ∧
      (∀ k, (getKey obj k).isSome → (getKey obj2 k).isSome) ∧
      (truthy (error.cause.getD .vUndef) = true →
        getKey obj2 "cause" = some (error.cause.getD .vUndef)) ∧
      (truthy (error.cause.getD .vUndef) = false → obj2 = obj) := by
  by_cases hc : truthy (error.cause.getD .vUndef) = true
  · refine ⟨setKey obj "cause" (error.cause.getD .vUndef), rfl, rfl, ?_, ?_,
      ?_, ?_, ?_⟩
    · rw [getErrorLogObject_fst_heap, if_pos hc, hobj]
      exact heapGet_heapSet_self _ hobj
    · intro k hk
      exact getKey_setKey_ne obj "cause" k _ hk
    · intro k hsome
      by_cases hk : k = "cause"
      · subst hk
        rw [getKey_setKey_self]
        rfl
      · rw [getKey_setKey_ne obj "cause" k _ hk]
        exact hsome
    · intro _
      exact getKey_setKey_self obj "cause" _
    · intro hfalse
      rw [hc] at hfalse
      cases hfalse
  · refine ⟨obj, rfl, rfl, ?_, ?_, ?_, ?_, ?_⟩
    · rw [getErrorLogObject_fst_heap, if_neg hc]
      exact hobj
    · intro k _
      rfl
    · intro k h
      exact h
    · intro htrue
      exact absurd htrue hc
    · intro _
      rfl

/-- Witness for C6 (amended): a context mapping a to 1 and a truthy cause. -/
theorem C6_witness :
    ∃ obj2,
      (getErrorLogObject oneObjWorld causeStrError 0).1.errorLog =
        oneObjWorld.errorLog ++ [(getErrorLogObject oneObjWorld causeStrError 0).2] ∧
      (getErrorLogObject oneObjWorld causeStrError 0).2.more = 0 ∧
      heapGet (getErrorLogObject oneObjWorld causeStrError 0).1.heap 0 =
        some obj2 ∧
      (∀ k, k ≠ "cause" →
        getKey obj2 k = getKey [("a", JsVal.vNum 1)] k) ∧
      (∀ k, (getKey [("a", JsVal.vNum 1)] k).isSome →
        (getKey obj2 k).isSome) ∧
      (truthy (causeStrError.cause.getD .vUndef) = true →
        getKey obj2 "cause" = some (causeStrError.cause.getD .vUndef)) ∧
      (truthy (causeStrError.cause.getD .vUndef) = false →
        obj2 = [("a", JsVal.vNum 1)]) :=
  C6_record_preserves_context oneObjWorld causeStrError 0
    [("a", JsVal.vNum 1)] rfl

/-- C10 (counterexample): an error whose `cause` holds the boolean false has
a non-null cause, yet `getErrorLogObject` writes nothing into the supplied
mapping: the heap is unchanged and the mapping has no `cause` key, because
the source tests truthiness, not non-nullness. -/
theorem C10_counterexample :
    causeFalseError.cause = some (JsVal.vBool false) ∧
    (getErrorLogObject oneObjWorld causeFalseError 0).1.heap =
      oneObjWorld.heap ∧
    getKey ((heapGet (getErrorLogObject oneObjWorld causeFalseError 0).1.heap
      0).getD []) "cause" = none :=
  ⟨rfl, rfl, rfl⟩

/-- C10 (amended): when the error carries a truthy `cause`,
`getErrorLogObject` mutates the caller-supplied context object in place: the
`cause` key is written into the very object the caller passed (the returned
entry holds the same heap address, not a copy), every other heap address is
unchanged, and every key of the mapping other than `cause` keeps its
value. -/
theorem C10_in_place_cause_write (w : World) (error : JsError) (r : Nat)
    (obj : Obj) (c : JsVal) (hobj : heapGet w.heap r = some obj)
    (hc : error.cause = some c) (ht : truthy c = true) :
    (getErrorLogObject w error r).2.more = r ∧
    heapGet (getErrorLogObject w error r).1.heap r =
      some (setKey obj "cause" c) ∧
    (∀ r2, r2 ≠ r →
      heapGet (getErrorLogObject w error r).1.heap r2 = heapGet w.heap r2) ∧
    (∀ k, k ≠ "cause" → getKey (setKey obj "cause" c) k = getKey obj k) := by
  have hcd : error.cause.getD .vUndef = c := by rw [hc]; rfl
  have htr : truthy (error.cause.getD .vUndef) = true := by rw [hcd]; exact ht
  refine ⟨rfl, ?_, ?_, ?_⟩
  · rw [getErrorLogObject_fst_heap, if_pos htr, hobj, hcd]
    exact heapGet_heapSet_self _ hobj
  · intro r2 hr2
    rw [getErrorLogObject_fst_heap, if_pos htr, hobj, hcd]
    exact heapGet_heapSet_ne w.heap r r2 _ hr2
  · intro k hk
    exact getKey_setKey_ne obj "cause" k c hk

/-- Witness for C10 (amended): the in-place write at a concrete heap. -/
theorem C10_witness :
    (getErrorLogObject oneObjWorld causeStrError 0).2.more = 0 ∧
    heapGet (getErrorLogObject oneObjWorld causeStrError 0).1.heap 0 =
      some (setKey [("a", JsVal.vNum 1)] "cause" (JsVal.vStr "boom")) ∧
    (∀ r2, r2 ≠ 0 →
      heapGet (getErrorLogObject oneObjWorld causeStrError 0).1.heap r2 =
        heapGet oneObjWorld.heap r2) ∧
    (∀ k, k ≠ "cause" →
      getKey (setKey [("a", JsVal.vNum 1)] "cause" (JsVal.vStr "boom")) k =
        getKey [("a", JsVal.vNum 1)] k) :=
  C10_in_place_cause_write oneObjWorld causeStrError 0 [("a", JsVal.vNum 1)]
    (JsVal.vStr "boom") rfl rfl rfl

/-- lodash truncate to 128 never returns more than 128 characters. -/
theorem truncate_length_le (s : String) : (truncate s 128).length ≤ 128 := by
  unfold truncate
  split
  · omega
  · rw [String.length_append]
    have h1 : (s.take (128 - 3)).length ≤ 125 := by
      rw [String.take_eq]
      show (s.data.take (128 - 3)).length ≤ 125
      simp [List.length_take]
    have h2 : ("..." : String).length = 3 := rfl
    omega

/-- C7: for every wrapped operation and argument list, on success both
wrappers return the result unchanged with no handling; on failure the
asynchronous wrapper runs `handleError(false, error, functionName and
functionArgs)` and then re-raises the original error to its caller, while
the synchronous wrapper raises nothing synchronously to its caller (the
caller receives undefined), fires the same handling, and re-raises the
original error only inside the detached continuation chained after the
handling settles. -/
theorem C7_wrapper_contracts (store : Store) (w : World) (n : String)
    (func : List JsVal → Except JsError JsVal) (args : List JsVal) :
    (∀ v, func args = .ok v →
      errorHandled store w n func args = (w, .ok v) ∧
      errorHandledSync store w n func args =
        { world := w, returned := v, raisedToCaller := none,
          detachedRaise := none }) ∧
    (∀ e, func args = .error e →
      errorHandled store w n func args =
        (handleError store
          { w with heap := w.heap ++
            [[("functionName", JsVal.vStr n),
              ("functionArgs", JsVal.vArr args)]] }
          false e (some w.heap.length), .error e) ∧
      (errorHandledSync store w n func args).raisedToCaller = none ∧
      (errorHandledSync store w n func args).detachedRaise = some e ∧
      (errorHandledSync store w n func args).returned = .vUndef ∧
      (errorHandledSync store w n func args).world =
        (errorHandled store w n func args).1) := by
  constructor
  · intro v hv
    constructor <;> simp [errorHandled, errorHandledSync, hv]
  · intro e he
    refine ⟨?_, ?_, ?_, ?_, ?_⟩ <;>
      simp [errorHandled, errorHandledSync, allocObj, he]

/-- Witness for C7: a succeeding and a failing wrapped operation. -/
theorem C7_witness :
    errorHandled sampleStore emptyWorld "f" okFunc [] =
      (emptyWorld, .ok (.vNum 7)) ∧
    (errorHandledSync sampleStore emptyWorld "g" failFunc []).raisedToCaller =
      none ∧
    (errorHandledSync sampleStore emptyWorld "g" failFunc []).detachedRaise =
      some unsetStoreError :=
  ⟨((C7_wrapper_contracts sampleStore emptyWorld "f" okFunc []).1
      (.vNum 7) rfl).1,
    ((C7_wrapper_contracts sampleStore emptyWorld "g" failFunc []).2
      unsetStoreError rfl).2.1,
    ((C7_wrapper_contracts sampleStore emptyWorld "g" failFunc []).2
      unsetStoreError rfl).2.2.1⟩

/-- C8: `handleErrorWithDialog` re-raises the original error to its caller
after the dialog is shown unless `dontThrow` is set, in which case it
returns normally and swallows the error; one dialog is presented in either
case. -/
theorem C8_dialog_rethrow_policy (store : Store)
    (gem : JsError → JsVal → String) (w : World) (error : JsError)
    (doc : JsVal) (rf : Bool) :
    (handleErrorWithDialog store gem w error doc rf true).2 = .ok () ∧
    (handleErrorWithDialog store gem w error doc rf false).2 = .error error ∧
    (handleErrorWithDialog store gem w error doc rf true).1.dialogs.length =
      w.dialogs.length + 1 ∧
    (handleErrorWithDialog store gem w error doc rf false).1.dialogs.length =
      w.dialogs.length + 1 := by
  refine ⟨?_, ?_, ?_, ?_⟩ <;>
    cases rf <;>
    simp [handleErrorWithDialog, allocObj, showMessageDialog,
      handleError_dialogs] <;>
    split <;>
    simp [handleError_dialogs]

/-- C9: when `reportError` is requested the dialog detail is the display
message truncated to at most 128 characters and the dialog carries Report
and Cancel buttons; when it is not requested the detail is the untruncated
display message and no buttons are attached. -/
theorem C9_dialog_detail_truncation (store : Store)
    (gem : JsError → JsVal → String) (w : World) (error : JsError)
    (doc : JsVal) (dt : Bool) :
    ∃ opts1 opts2 : MessageDialogOptions,
      (handleErrorWithDialog store gem w error doc true dt).1.dialogs =
        w.dialogs ++ [opts1] ∧
      opts1.detail = truncate (gem error doc) 128 ∧
      opts1.detail.length ≤ 128 ∧
      opts1.buttons = some ["Report", "Cancel"] ∧
      (handleErrorWithDialog store gem w error doc false dt).1.dialogs =
        w.dialogs ++ [opts2] ∧
      opts2.detail = gem error doc ∧
      opts2.buttons = none := by
  refine ⟨⟨getErrorLabel error, truncate (gem error doc) 128,
      some [t "Report", t "Cancel"]⟩,
    ⟨getErrorLabel error, gem error doc, none⟩,
    ?_, rfl, truncate_length_le (gem error doc), rfl, ?_, rfl, rfl⟩ <;>
    cases dt <;>
    simp [handleErrorWithDialog, allocObj, showMessageDialog,
      handleError_dialogs, t] <;>
    split <;>
    simp [handleError_dialogs]
